import Mathlib

/-!
Verification development for the voiceboard repository.

This file gives a shallow embedding, in Lean, of the parts of the program
that the verified claims concern:

- the real-time audio engine command loop
  (src-tauri/src/application/audio_engine.rs, run_engine_thread),
- the input and output stream callbacks of that engine,
- the SPSC ring transport (ringbuf HeapRb, as used by the callbacks),
- the preview engine Play arm
  (src-tauri/src/application/preview_engine.rs, run_preview_thread),
- the device registry lookup
  (src-tauri/src/adapters/cpal_device_manager.rs, get_device),
- the DSP effect chain dispatcher (src/dsp/mod.rs, EffectChain::process),
- the sample and buffer value types
  (src-tauri/src/domain/audio/sample.rs and buffer.rs).

Samples are f32 in the source; they are modelled as rationals.  Effectful
host operations (device lookup, stream construction, stream start, file
open, decoding) are modelled by boolean oracles recording whether each
host call succeeds, so that a single Lean function captures every control
path of the corresponding Rust match/continue cascade.
-/

/-- Rust f32::clamp lo hi: values below lo become lo, above hi become hi. -/
def clampQ (lo hi x : ℚ) : ℚ := min (max x lo) hi

/-! ## Audio engine data model (audio_engine.rs) -/

/-- A sound that is currently playing (struct PlayingSound). -/
structure PlayingSound where
  samples : List ℚ
  position : ℕ
deriving DecidableEq

/-- Shared state for audio processing (struct AudioState).  The volume and
mute fields are present in the source but dead there (the engine uses the
separate atomics instead); they are kept for fidelity. -/
structure AudioState where
  playing_sounds : List (String × PlayingSound)
  mic_volume : ℚ
  master_volume : ℚ
  mic_muted : Bool
deriving DecidableEq

/-- The observable state owned by run_engine_thread: the two stream slots
(modelled by whether the Option is Some), the engine-level ring_buffer
Option, the mutex-guarded AudioState, the three atomics, and the
is_running flag of the AudioEngine handle. -/
structure EngineState where
  input_stream : Bool
  output_stream : Bool
  ring_buffer : Bool
  audio_state : AudioState
  mic_volume : ℚ
  master_volume : ℚ
  mic_muted : Bool
  is_running : Bool
deriving DecidableEq

/-- HashMap::insert on the playing_sounds map: replaces any entry with the
same key.  The map is modelled as an association list with unique keys. -/
def insertSound (id : String) (snd : PlayingSound)
    (m : List (String × PlayingSound)) : List (String × PlayingSound) :=
  (m.filter (fun p => p.1 ≠ id)) ++ [(id, snd)]

/-- HashMap::remove on the playing_sounds map. -/
def removeSound (id : String)
    (m : List (String × PlayingSound)) : List (String × PlayingSound) :=
  m.filter (fun p => p.1 ≠ id)

/-- Commands that can be sent to the audio engine (enum AudioEngineCommand). -/
inductive AudioEngineCommand where
  | Start (input_device output_device : String) (sample_rate : ℕ) (channels : ℕ)
  | Stop
  | PlaySound (id : String) (samples : List ℚ)
  | StopSound (id : String)
  | SetMicVolume (v : ℚ)
  | SetMasterVolume (v : ℚ)
  | SetMicMuted (m : Bool)
  | Shutdown
deriving DecidableEq

/-- Events emitted by the audio engine (enum AudioEngineEvent).  The
LevelUpdate variant is declared in the source with exactly the two fields
input_level and output_level. -/
inductive AudioEngineEvent where
  | Started
  | Stopped
  | Error (msg : String)
  | LevelUpdate (input_level output_level : ℚ)
deriving DecidableEq

/-- Whether an event is a LevelUpdate. -/
def AudioEngineEvent.isLevelUpdate : AudioEngineEvent → Bool
  | .LevelUpdate _ _ => true
  | _ => false

/-- Oracle recording the outcome of each host call made while processing a
Start command, in the order the source performs them: find_device for the
input, find_device for the output, build_input_stream, build_output_stream,
input play, output play. -/
structure StartEnv where
  find_input_device : Bool
  find_output_device : Bool
  build_input_stream : Bool
  build_output_stream : Bool
  play_input : Bool
  play_output : Bool
deriving DecidableEq

/-- A Start command fails when any of its six host calls fails. -/
def startFails (env : StartEnv) : Bool :=
  !(env.find_input_device && env.find_output_device && env.build_input_stream
    && env.build_output_stream && env.play_input && env.play_output)

/-- The Start arm of run_engine_thread.  The source first drops any
existing streams, then resolves devices, builds both streams, and starts
them; each failing step sends one Error event and continues the loop.  On
success it stores the streams, sets is_running and sends Started. -/
def processStart (env : StartEnv) (input_device output_device : String)
    (s : EngineState) : EngineState × List AudioEngineEvent :=
  let s1 := { s with input_stream := false, output_stream := false }
  if env.find_input_device = false then
    (s1, [AudioEngineEvent.Error ("Input device not found: " ++ input_device)])
  else if env.find_output_device = false then
    (s1, [AudioEngineEvent.Error ("Output device not found: " ++ output_device)])
  else if env.build_input_stream = false then
    (s1, [AudioEngineEvent.Error "Failed to create input stream"])
  else if env.build_output_stream = false then
    (s1, [AudioEngineEvent.Error "Failed to create output stream"])
  else if env.play_input = false then
    (s1, [AudioEngineEvent.Error "Failed to start input"])
  else if env.play_output = false then
    (s1, [AudioEngineEvent.Error "Failed to start output"])
  else
    ({ s1 with input_stream := true, output_stream := true, is_running := true },
     [AudioEngineEvent.Started])

/-- One command dispatch of the run_engine_thread loop. -/
def processCommand (env : StartEnv) (s : EngineState) :
    AudioEngineCommand → EngineState × List AudioEngineEvent
  | .Start input_device output_device _ _ =>
      processStart env input_device output_device s
  | .Stop =>
      ({ s with input_stream := false, output_stream := false,
                ring_buffer := false, is_running := false,
                audio_state := { s.audio_state with playing_sounds := [] } },
       [AudioEngineEvent.Stopped])
  | .PlaySound id samples =>
      ({ s with audio_state := { s.audio_state with
            playing_sounds :=
              insertSound id ⟨samples, 0⟩ s.audio_state.playing_sounds } },
       [])
  | .StopSound id =>
      ({ s with audio_state := { s.audio_state with
            playing_sounds := removeSound id s.audio_state.playing_sounds } },
       [])
  | .SetMicVolume v => ({ s with mic_volume := clampQ 0 2 v }, [])
  | .SetMasterVolume v => ({ s with master_volume := clampQ 0 2 v }, [])
  | .SetMicMuted m => ({ s with mic_muted := m }, [])
  | .Shutdown =>
      ({ s with input_stream := false, output_stream := false,
                is_running := false },
       [])

/-- One iteration of the engine loop: either a command was received or the
10 ms receive timed out (in which case nothing happens and nothing is
emitted). -/
def engineStep (env : StartEnv) (s : EngineState) :
    Option AudioEngineCommand → EngineState × List AudioEngineEvent
  | some c => processCommand env s c
  | none => (s, [])

/-- A whole run of the engine loop over a list of loop-iteration inputs,
collecting every event sent to the event outbox. -/
def runEngine (env : StartEnv) (s : EngineState) :
    List (Option AudioEngineCommand) → EngineState × List AudioEngineEvent
  | [] => (s, [])
  | oc :: rest =>
      let r := engineStep env s oc
      let rr := runEngine env r.1 rest
      (rr.1, r.2 ++ rr.2)

/-! ## Ring transport and stream callbacks (audio_engine.rs) -/

/-- The SPSC ring (ringbuf HeapRb of f32): bounded capacity, samples in
production order, oldest first. -/
structure HeapRb where
  capacity : ℕ
  data : List ℚ
deriving DecidableEq

/-- ringbuf try_push: appends when there is room; when the ring is full
the push fails and the ring is unchanged (the source discards the Result). -/
def HeapRb.try_push (r : HeapRb) (x : ℚ) : HeapRb :=
  if r.data.length < r.capacity then { r with data := r.data ++ [x] } else r

/-- The input stream callback: reads the mute and volume atomics, and if
the producer try_lock succeeds pushes each processed sample with try_push
(dropping it when the ring is full). -/
def inputCallback (muted : Bool) (volume : ℚ) (got_lock : Bool)
    (data : List ℚ) (r : HeapRb) : HeapRb :=
  if got_lock then
    data.foldl
      (fun acc sample => acc.try_push (if muted then 0 else sample * volume))
      r
  else r

/-- Drain up to frames samples from the ring into the device buffer,
zero-filling any underrun (cons.try_pop().unwrap_or(0.0) per slot). -/
def drainRing (r : HeapRb) (frames : ℕ) : List ℚ × HeapRb :=
  ((List.range frames).map (fun i => r.data.getD i 0),
   { r with data := r.data.drop frames })

/-- Mixing one playing sound into the device buffer: to_mix samples
starting at the cursor are added with a per-sample clamp to plus or minus
one, and the cursor advances by to_mix. -/
def mixOne (data : List ℚ) (snd : PlayingSound) : List ℚ × PlayingSound :=
  let remaining := snd.samples.length - snd.position
  let to_mix := min remaining data.length
  ((List.range data.length).map (fun i =>
      if i < to_mix then
        clampQ (-1) 1 (data.getD i 0 + snd.samples.getD (snd.position + i) 0)
      else data.getD i 0),
   ⟨snd.samples, snd.position + to_mix⟩)

/-- The iter_mut loop of the output callback over all playing sounds,
threading the device buffer through mixOne for each entry in turn. -/
def mixSoundsGo (data : List ℚ) :
    List (String × PlayingSound) → List ℚ × List (String × PlayingSound)
  | [] => (data, [])
  | p :: rest =>
      let r1 := mixOne data p.2
      let r2 := mixSoundsGo r1.1 rest
      (r2.1, (p.1, r1.2) :: r2.2)

/-- Mixing all playing sounds and then removing the finished ones: the
source collects the ids whose cursor reached the end and removes them from
the map, which (ids being unique) keeps exactly the entries whose cursor
is still strictly below the length. -/
def mixSounds (data : List ℚ) (sounds : List (String × PlayingSound)) :
    List ℚ × List (String × PlayingSound) :=
  let r := mixSoundsGo data sounds
  (r.1, r.2.filter (fun p => p.2.position < p.2.samples.length))

/-- Which try_lock acquisitions succeed during one output callback. -/
structure TickLocks where
  consumer_lock : Bool
  state_lock : Bool
deriving DecidableEq

/-- The output stream callback: fill the buffer from the ring (silence if
the consumer try_lock is contended), mix the playing sounds (skipped if
the state try_lock is contended), then apply the master volume with a
final clamp.  Returns the ring after draining, the surviving sounds, and
the rendered buffer. -/
def renderTick (locks : TickLocks) (master : ℚ) (r : HeapRb) (frames : ℕ)
    (sounds : List (String × PlayingSound)) :
    HeapRb × List (String × PlayingSound) × List ℚ :=
  let d1 :=
    if locks.consumer_lock then drainRing r frames
    else (List.replicate frames 0, r)
  let d2 :=
    if locks.state_lock then mixSounds d1.1 sounds
    else (d1.1, sounds)
  (d1.2, d2.2, d2.1.map (fun x => clampQ (-1) 1 (x * master)))

/-! ## Preview engine (preview_engine.rs) -/

/-- Events emitted by the preview engine via the app handle. -/
inductive PreviewEvent where
  | preview_started (pad_id : String)
  | preview_stopped (pad_id : String)
deriving DecidableEq

/-- Whether an event is a preview-started event. -/
def PreviewEvent.isStarted : PreviewEvent → Bool
  | .preview_started _ => true
  | _ => false

/-- The state owned by run_preview_thread: whether a sink, a pad id and an
output stream are current. -/
structure PreviewState where
  current_sink : Bool
  current_pad_id : Option String
  current_stream : Bool
deriving DecidableEq

/-- Oracle for the host calls of the preview Play arm, in source order:
find_output_device, OutputStream::try_from_device, Sink::try_new,
File::open, Decoder::new. -/
structure PreviewPlayEnv where
  find_output_device : Bool
  open_output_stream : Bool
  new_sink : Bool
  open_file : Bool
  decode_file : Bool
deriving DecidableEq

/-- A preview Play fails when any of its five host calls fails. -/
def previewPlayFails (env : PreviewPlayEnv) : Bool :=
  !(env.find_output_device && env.open_output_stream && env.new_sink
    && env.open_file && env.decode_file)

/-- The events emitted while stopping the current preview at the top of
the Play arm: preview-stopped for the previous pad id, when there is one. -/
def stopEventsFor : Option String → List PreviewEvent
  | some old => [PreviewEvent.preview_stopped old]
  | none => []

/-- The Play arm of run_preview_thread.  The source FIRST stops any
current sink, emits preview-stopped for the previous pad id and drops the
stream handles; only THEN does it resolve the device, open the stream,
create the sink, open and decode the file - each failing step logs and
continues the loop.  On success it stores the new sink, stream and pad id
and emits preview-started. -/
def processPreviewPlay (env : PreviewPlayEnv) (pad_id : String)
    (s : PreviewState) : PreviewState × List PreviewEvent :=
  let stopEvs := stopEventsFor s.current_pad_id
  let s1 : PreviewState :=
    { current_sink := false, current_pad_id := none, current_stream := false }
  if env.find_output_device = false then (s1, stopEvs)
  else if env.open_output_stream = false then (s1, stopEvs)
  else if env.new_sink = false then (s1, stopEvs)
  else if env.open_file = false then (s1, stopEvs)
  else if env.decode_file = false then (s1, stopEvs)
  else
    ({ current_sink := true, current_pad_id := some pad_id,
       current_stream := true },
     stopEvs ++ [PreviewEvent.preview_started pad_id])

/-! ## Device registry (cpal_device_manager.rs, domain/device/audio_device.rs) -/

/-- Type of audio device (enum DeviceType). -/
inductive DeviceType where
  | InputPhysical
  | OutputPhysical
  | InputVirtual
  | OutputVirtual
deriving DecidableEq

/-- An audio device entity (struct AudioDevice); DeviceId is a plain
string wrapper, kept as a string.  Enumeration sets the id to the device
name. -/
structure AudioDevice where
  id : String
  name : String
  device_type : DeviceType
  is_default : Bool
  sample_rates : List ℕ
  channels : List ℕ
deriving DecidableEq

/-- CpalDeviceManager::get_device: enumerate (the enumeration result is
the devices argument) and return the first device whose id equals the
requested id.  There is no special handling of any reserved id value. -/
def get_device (devices : List AudioDevice) (id : String) : Option AudioDevice :=
  devices.find? (fun d => d.id == id)

/-! ## Sample and buffer (domain/audio/sample.rs, domain/audio/buffer.rs) -/

/-- Sample::new: clamp the value to the unit interval around zero. -/
def sampleNew (value : ℚ) : ℚ := clampQ (-1) 1 value

/-- Sample::mix: equal-weight mix, clamped on construction. -/
def sampleMix (a b : ℚ) : ℚ := sampleNew ((a + b) / 2)

/-- An interleaved audio buffer (struct AudioBuffer). -/
structure AudioBuffer where
  samples : List ℚ
  channels : ℕ
  sample_rate : ℕ
deriving DecidableEq

/-- Errors from AudioBuffer operations (enum BufferError). -/
inductive BufferError where
  | ChannelMismatch (expected got : ℕ)
  | SampleRateMismatch (expected got : ℕ)
deriving DecidableEq

/-- AudioBuffer::mix: check channels, then sample rate, then mix the
common prefix of the two sample sequences element-wise with Sample::mix. -/
def AudioBuffer.mix (a b : AudioBuffer) : Except BufferError AudioBuffer :=
  if a.channels ≠ b.channels then
    .error (.ChannelMismatch a.channels b.channels)
  else if a.sample_rate ≠ b.sample_rate then
    .error (.SampleRateMismatch a.sample_rate b.sample_rate)
  else
    let min_len := min a.samples.length b.samples.length
    .ok ⟨List.zipWith sampleMix (a.samples.take min_len) (b.samples.take min_len),
         a.channels, a.sample_rate⟩

/-! ## Effect chain (src/dsp/mod.rs) -/

/-- The effect chain (struct EffectChain): one optional slot per DSP
block, in the field order of the source.  The DSP blocks themselves live
in separate modules; their internal states are abstracted as type
parameters here, since the verified claim is about the dispatch order of
EffectChain::process, which is universally quantified over what each
block computes. -/
structure EffectChain (P F R Ro D : Type) where
  pitch_shifter : Option P
  formant_shifter : Option F
  reverb : Option R
  robot : Option Ro
  distortion : Option D

/-- EffectChain::process: start from the input, then apply, in this fixed
order and only when the slot is Some, the pitch shifter, the formant
shifter, the robot effect, the distortion, and last the reverb, each block
receiving the previous output and updating its own state. -/
def EffectChain.process {P F R Ro D : Type}
    (pitchPr : P → List ℚ → P × List ℚ)
    (formantPr : F → List ℚ → F × List ℚ)
    (reverbPr : R → List ℚ → R × List ℚ)
    (robotPr : Ro → List ℚ → Ro × List ℚ)
    (distortionPr : D → List ℚ → D × List ℚ)
    (c : EffectChain P F R Ro D) (input : List ℚ) :
    EffectChain P F R Ro D × List ℚ :=
  let o0 := input
  let r1 := match c.pitch_shifter with
    | some b => let r := pitchPr b o0; (some r.1, r.2)
    | none => (none, o0)
  let r2 := match c.formant_shifter with
    | some b => let r := formantPr b r1.2; (some r.1, r.2)
    | none => (none, r1.2)
  let r3 := match c.robot with
    | some b => let r := robotPr b r2.2; (some r.1, r.2)
    | none => (none, r2.2)
  let r4 := match c.distortion with
    | some b => let r := distortionPr b r3.2; (some r.1, r.2)
    | none => (none, r3.2)
  let r5 := match c.reverb with
    | some b => let r := reverbPr b r4.2; (some r.1, r.2)
    | none => (none, r4.2)
  ({ pitch_shifter := r1.1, formant_shifter := r2.1, reverb := r5.1,
     robot := r3.1, distortion := r4.1 },
   r5.2)

/-- Modelled from the spec: the ordering sentence of the DSP chain section
says the enabled blocks are applied as the composition pitch, formant,
robot, distortion, reverb, disabled blocks skipped.  This definition
builds that composition directly as a left fold over the list of enabled
block output functions in that fixed order. -/
def specEnabledComposition {P F R Ro D : Type}
    (pitchPr : P → List ℚ → P × List ℚ)
    (formantPr : F → List ℚ → F × List ℚ)
    (reverbPr : R → List ℚ → R × List ℚ)
    (robotPr : Ro → List ℚ → Ro × List ℚ)
    (distortionPr : D → List ℚ → D × List ℚ)
    (c : EffectChain P F R Ro D) (input : List ℚ) : List ℚ :=
  (([c.pitch_shifter.map (fun b o => (pitchPr b o).2),
     c.formant_shifter.map (fun b o => (formantPr b o).2),
     c.robot.map (fun b o => (robotPr b o).2),
     c.distortion.map (fun b o => (distortionPr b o).2),
     c.reverb.map (fun b o => (reverbPr b o).2)]).filterMap id).foldl
    (fun o f => f o) input

/-! ## Concrete inputs used by witnesses and counterexamples -/

/-- A Start oracle in which every host call succeeds. -/
def env0 : StartEnv := ⟨true, true, true, true, true, true⟩

/-- A Start oracle in which the input device is not found. -/
def failEnvInputNotFound : StartEnv := ⟨false, true, true, true, true, true⟩

/-- The engine state right after thread start: no streams, no ring, empty
mixer map, unit volumes, unmuted, not running. -/
def engineState0 : EngineState :=
  ⟨false, false, false, ⟨[], 1, 1, false⟩, 1, 1, false, false⟩

/-- A ring of capacity one holding one not-yet-consumed sample: full. -/
def fullRing1 : HeapRb := ⟨1, [0]⟩

/-- A preview state in which pad p1 is currently playing. -/
def previewPlaying1 : PreviewState := ⟨true, some "p1", true⟩

/-- A preview Play oracle failing at device resolution. -/
def previewFailEnv : PreviewPlayEnv := ⟨false, true, true, true, true⟩

/-- A single enumerated output device that is the host default. -/
def speakersDevice : AudioDevice :=
  ⟨"Speakers", "Speakers", DeviceType.OutputPhysical, true, [44100, 48000], [1, 2]⟩

/-- A two-sample stereo buffer with in-range samples. -/
def bufA : AudioBuffer := ⟨[1, 0], 2, 44100⟩

/-- A two-sample mono buffer with in-range samples. -/
def bufMono : AudioBuffer := ⟨[1, 0], 1, 44100⟩

/-- The claimed mixer-map invariant of C3: every entry has a cursor between
zero and the sample length, and no entry has cursor equal to the length. -/
def mixerInvariantHolds (sounds : List (String × PlayingSound)) : Prop :=
  ∀ p ∈ sounds, p.2.position ≤ p.2.samples.length ∧
    p.2.position ≠ p.2.samples.length

/-! ## Helper lemmas -/

/-- Mixing one sound never moves the cursor past the end. -/
theorem mixOne_position_le (data : List ℚ) (snd : PlayingSound)
    (h : snd.position ≤ snd.samples.length) :
    (mixOne data snd).2.position ≤ (mixOne data snd).2.samples.length := by
  simp only [mixOne]
  omega

/-- The mixing loop over all sounds never moves a cursor past the end. -/
theorem mixSoundsGo_position_le (sounds : List (String × PlayingSound))
    (data : List ℚ)
    (h : ∀ p ∈ sounds, p.2.position ≤ p.2.samples.length) :
    ∀ q ∈ (mixSoundsGo data sounds).2,
      q.2.position ≤ q.2.samples.length := by
  induction sounds generalizing data with
  | nil => intro q hq; simp [mixSoundsGo] at hq
  | cons p rest ih =>
      intro q hq
      simp only [mixSoundsGo, List.mem_cons] at hq
      rcases hq with hq | hq
      · subst hq
        exact mixOne_position_le data p.2 (h p (List.mem_cons_self p rest))
      · exact ih (mixOne data p.2).1
          (fun x hx => h x (List.mem_cons_of_mem p hx)) q hq

/-- After a render tick that acquires the state lock, every surviving
entry has its cursor strictly below its length. -/
theorem renderTick_mem_sounds_lt (locks : TickLocks) (master : ℚ)
    (r : HeapRb) (frames : ℕ) (sounds : List (String × PlayingSound))
    (hlock : locks.state_lock = true) :
    ∀ q ∈ (renderTick locks master r frames sounds).2.1,
      q.2.position < q.2.samples.length := by
  intro q hq
  simp only [renderTick, hlock, if_true, mixSounds] at hq
  exact of_decide_eq_true (List.mem_filter.mp hq).2

/-- Membership in the map after an insert: the new entry or an old one. -/
theorem mem_insertSound (id : String) (snd : PlayingSound)
    (m : List (String × PlayingSound)) (q : String × PlayingSound)
    (hq : q ∈ insertSound id snd m) : q = (id, snd) ∨ q ∈ m := by
  simp only [insertSound, List.mem_append, List.mem_filter,
    List.mem_singleton] at hq
  rcases hq with hq | hq
  · exact Or.inr hq.1
  · exact Or.inl hq

/-- Membership in the map after a remove implies prior membership. -/
theorem mem_removeSound (id : String) (m : List (String × PlayingSound))
    (q : String × PlayingSound) (hq : q ∈ removeSound id m) : q ∈ m :=
  (List.mem_filter.mp hq).1

/-- The events emitted while stopping the current preview are never
preview-started events. -/
theorem stopEventsFor_not_started (o : Option String) :
    ∀ e ∈ stopEventsFor o, e.isStarted = false := by
  cases o with
  | none => intro e he; simp [stopEventsFor] at he
  | some a =>
      intro e he
      rcases List.mem_singleton.mp he with rfl
      rfl

/-- Element-wise, Sample::mix of in-range inputs is the plain mean: the
clamp on construction is the identity there. -/
theorem zipWith_sampleMix_eq_mean (l1 l2 : List ℚ)
    (h1 : ∀ x ∈ l1, -1 ≤ x ∧ x ≤ 1) (h2 : ∀ x ∈ l2, -1 ≤ x ∧ x ≤ 1) :
    List.zipWith sampleMix l1 l2 = List.zipWith (fun x y => (x + y) / 2) l1 l2 := by
  induction l1 generalizing l2 with
  | nil => simp
  | cons x xs ih =>
      cases l2 with
      | nil => simp
      | cons y ys =>
          have hx := h1 x (List.mem_cons_self x xs)
          have hy := h2 y (List.mem_cons_self y ys)
          have hmix : sampleMix x y = (x + y) / 2 := by
            unfold sampleMix sampleNew clampQ
            have hlo : (-1 : ℚ) ≤ (x + y) / 2 := by linarith [hx.1, hy.1]
            have hhi : (x + y) / 2 ≤ 1 := by linarith [hx.2, hy.2]
            rw [max_eq_left hlo, min_eq_left hhi]
          simp only [List.zipWith_cons_cons, hmix]
          rw [ih ys (fun a ha => h1 a (List.mem_cons_of_mem x ha))
            (fun a ha => h2 a (List.mem_cons_of_mem y ha))]

/-- One engine loop iteration never emits a LevelUpdate event. -/
theorem engineStep_no_levelUpdate (env : StartEnv) (s : EngineState)
    (oc : Option AudioEngineCommand) :
    ((engineStep env s oc).2).all (fun e => !e.isLevelUpdate) = true := by
  match oc with
  | none => rfl
  | some c =>
    cases c with
    | Start i o sr ch =>
        obtain ⟨f1, f2, f3, f4, f5, f6⟩ := env
        cases f1 <;> cases f2 <;> cases f3 <;> cases f4 <;> cases f5 <;>
          cases f6 <;> rfl
    | Stop => rfl
    | PlaySound id samples => rfl
    | StopSound id => rfl
    | SetMicVolume v => rfl
    | SetMasterVolume v => rfl
    | SetMicMuted m => rfl
    | Shutdown => rfl

/-! ## Claim theorems -/

/-- Claim C1: if processing a Start command fails at any step (input device
not found, output device not found, stream creation or stream start error),
the engine emits exactly one Error event, tears down any partially created
resources (both stream slots end empty), and the prior engine state is
preserved: the mixer map, the volume and mute atomics and the ring slot are
unchanged, is_running is unchanged, and in particular remains false when the
engine was Stopped - for every failing Start command and every prior state. -/
theorem C1_start_failure (env : StartEnv) (input_device output_device : String)
    (sample_rate channels : ℕ) (s : EngineState)
    (h : startFails env = true) :
    (∃ msg, (processCommand env s
        (.Start input_device output_device sample_rate channels)).2
      = [AudioEngineEvent.Error msg]) ∧
    (processCommand env s
        (.Start input_device output_device sample_rate channels)).1.is_running
      = s.is_running ∧
    (processCommand env s
        (.Start input_device output_device sample_rate channels)).1.audio_state
      = s.audio_state ∧
    (processCommand env s
        (.Start input_device output_device sample_rate channels)).1.mic_volume
      = s.mic_volume ∧
    (processCommand env s
        (.Start input_device output_device sample_rate channels)).1.master_volume
      = s.master_volume ∧
    (processCommand env s
        (.Start input_device output_device sample_rate channels)).1.mic_muted
      = s.mic_muted ∧
    (processCommand env s
        (.Start input_device output_device sample_rate channels)).1.ring_buffer
      = s.ring_buffer ∧
    (processCommand env s
        (.Start input_device output_device sample_rate channels)).1.input_stream
      = false ∧
    (processCommand env s
        (.Start input_device output_device sample_rate channels)).1.output_stream
      = false ∧
    (s.is_running = false →
      (processCommand env s
          (.Start input_device output_device sample_rate channels)).1.is_running
        = false) := by
  obtain ⟨f1, f2, f3, f4, f5, f6⟩ := env
  cases f1 <;> cases f2 <;> cases f3 <;> cases f4 <;> cases f5 <;> cases f6 <;>
    first
      | exact absurd h (by decide)
      | exact ⟨⟨_, rfl⟩, rfl, rfl, rfl, rfl, rfl, rfl, rfl, rfl, fun hh => hh⟩

/-- Witness for C1: a concrete failing Start (input device not found) from
the freshly started, stopped engine state. -/
theorem C1_start_failure_witness :
    startFails failEnvInputNotFound = true ∧
    (processCommand failEnvInputNotFound engineState0
        (.Start "default" "default" 48000 2)).1.is_running
      = engineState0.is_running :=
  ⟨by decide,
   (C1_start_failure failEnvInputNotFound "default" "default" 48000 2
      engineState0 (by decide)).2.1⟩

/-- Claim C10: processing Stop in any engine state unconditionally emits one
Stopped event, sets is_running to false and clears all playing sounds; a Stop
received while already stopped still emits Stopped, and processing Stop twice
in a row emits Stopped both times while leaving the state identical after
each. -/
theorem C10_stop_unconditional (env : StartEnv) (s : EngineState) :
    (processCommand env s .Stop).2 = [AudioEngineEvent.Stopped] ∧
    (processCommand env s .Stop).1.is_running = false ∧
    (processCommand env s .Stop).1.audio_state.playing_sounds = [] ∧
    processCommand env (processCommand env s .Stop).1 .Stop
      = ((processCommand env s .Stop).1, [AudioEngineEvent.Stopped]) :=
  ⟨rfl, rfl, rfl, rfl⟩

/-- Counterexample to C2: processing PlaySound with an empty samples
sequence is not a no-op - starting from the fresh engine state, the state
after the command differs from the state before it. -/
theorem C2_counterexample :
    (processCommand env0 engineState0 (.PlaySound "a" [])).1 ≠ engineState0 := by
  decide

/-- Claim C2 (amended): processing PlaySound with an empty samples sequence
emits no event and changes exactly the mixer map: it inserts an entry with
empty samples and cursor zero under the given id (replacing any entry with
that id) and leaves every other part of the state unchanged; the inserted
entry is removed by the next render tick that acquires the state lock and
contributes no audio, so the command has no audible effect but is not a
no-op. -/
theorem C2_empty_playsound (env : StartEnv) (s : EngineState) (id : String)
    (locks : TickLocks) (master : ℚ) (r : HeapRb) (frames : ℕ)
    (hlock : locks.state_lock = true) :
    (processCommand env s (.PlaySound id [])).2 = [] ∧
    (processCommand env s (.PlaySound id [])).1 =
      { s with audio_state := { s.audio_state with
          playing_sounds :=
            insertSound id ⟨[], 0⟩ s.audio_state.playing_sounds } } ∧
    ∀ q ∈ (renderTick locks master r frames
        (processCommand env s (.PlaySound id [])).1.audio_state.playing_sounds).2.1,
      0 < q.2.samples.length := by
  refine ⟨rfl, rfl, ?_⟩
  intro q hq
  have := renderTick_mem_sounds_lt locks master r frames
    (processCommand env s (.PlaySound id [])).1.audio_state.playing_sounds
    hlock q hq
  omega

/-- Witness for the amended C2 at concrete inputs. -/
theorem C2_empty_playsound_witness :
    (processCommand env0 engineState0 (.PlaySound "a" [])).2 = [] ∧
    (processCommand env0 engineState0 (.PlaySound "a" [])).1 =
      { engineState0 with audio_state := { engineState0.audio_state with
          playing_sounds :=
            insertSound "a" ⟨[], 0⟩ engineState0.audio_state.playing_sounds } } :=
  ⟨(C2_empty_playsound env0 engineState0 "a" ⟨true, true⟩ 1 fullRing1 4 rfl).1,
   (C2_empty_playsound env0 engineState0 "a" ⟨true, true⟩ 1 fullRing1 4 rfl).2.1⟩

/-- Counterexample to C3: the claimed invariant (cursor strictly below the
length for every entry) holds in the fresh state but is not preserved by
processing a PlaySound command whose samples sequence is empty - the
inserted entry has cursor equal to its length (both zero). -/
theorem C3_counterexample :
    mixerInvariantHolds engineState0.audio_state.playing_sounds ∧
    ¬ mixerInvariantHolds
        (processCommand env0 engineState0
          (.PlaySound "a" [])).1.audio_state.playing_sounds := by
  constructor
  · intro p hp
    simp [engineState0] at hp
  · intro hinv
    have hmem : ("a", (⟨[], 0⟩ : PlayingSound)) ∈
        (processCommand env0 engineState0
          (.PlaySound "a" [])).1.audio_state.playing_sounds := by
      decide
    exact (hinv _ hmem).2 rfl

/-- Claim C3 (amended): for every PlayingSound entry, the cursor stays
between zero and the sample length: this is preserved by PlaySound, by
StopSound and by every render tick.  The stronger part of the claim - no
entry with cursor equal to the length is present - holds after every render
tick that acquires the state lock, is preserved by StopSound, and is
preserved by PlaySound whenever the samples sequence is nonempty; only
PlaySound with empty samples introduces a (transient) completed entry. -/
theorem C3_cursor_invariant (env : StartEnv) (s : EngineState) (id : String)
    (samples : List ℚ) (locks : TickLocks) (master : ℚ) (r : HeapRb)
    (frames : ℕ)
    (hpos : ∀ p ∈ s.audio_state.playing_sounds,
      p.2.position ≤ p.2.samples.length) :
    (∀ p ∈ (processCommand env s
        (.PlaySound id samples)).1.audio_state.playing_sounds,
      p.2.position ≤ p.2.samples.length) ∧
    (∀ p ∈ (processCommand env s
        (.StopSound id)).1.audio_state.playing_sounds,
      p.2.position ≤ p.2.samples.length) ∧
    (∀ p ∈ (renderTick locks master r frames
        s.audio_state.playing_sounds).2.1,
      p.2.position ≤ p.2.samples.length) ∧
    (locks.state_lock = true →
      ∀ p ∈ (renderTick locks master r frames
          s.audio_state.playing_sounds).2.1,
        p.2.position < p.2.samples.length) ∧
    (samples ≠ [] →
      (∀ p ∈ s.audio_state.playing_sounds,
        p.2.position < p.2.samples.length) →
      ∀ p ∈ (processCommand env s
          (.PlaySound id samples)).1.audio_state.playing_sounds,
        p.2.position < p.2.samples.length) ∧
    ((∀ p ∈ s.audio_state.playing_sounds,
        p.2.position < p.2.samples.length) →
      ∀ p ∈ (processCommand env s
          (.StopSound id)).1.audio_state.playing_sounds,
        p.2.position < p.2.samples.length) := by
  refine ⟨?_, ?_, ?_, ?_, ?_, ?_⟩
  · intro p hp
    rcases mem_insertSound id ⟨samples, 0⟩ s.audio_state.playing_sounds p hp with
      rfl | hp
    · exact Nat.zero_le _
    · exact hpos p hp
  · intro p hp
    exact hpos p (mem_removeSound id s.audio_state.playing_sounds p hp)
  · by_cases hlock : locks.state_lock = true
    · intro p hp
      exact Nat.le_of_lt (renderTick_mem_sounds_lt locks master r frames
        s.audio_state.playing_sounds hlock p hp)
    · intro p hp
      have heq : (renderTick locks master r frames
          s.audio_state.playing_sounds).2.1 = s.audio_state.playing_sounds := by
        simp [renderTick, hlock]
      rw [heq] at hp
      exact hpos p hp
  · intro hlock
    exact renderTick_mem_sounds_lt locks master r frames
      s.audio_state.playing_sounds hlock
  · intro hne hstrict p hp
    rcases mem_insertSound id ⟨samples, 0⟩ s.audio_state.playing_sounds p hp with
      rfl | hp
    · simpa using List.length_pos.mpr hne
    · exact hstrict p hp
  · intro hstrict p hp
    exact hstrict p (mem_removeSound id s.audio_state.playing_sounds p hp)

/-- Witness for the amended C3: the entry inserted by a concrete nonempty
PlaySound into the fresh state has its cursor within bounds. -/
theorem C3_cursor_invariant_witness :
    (PlayingSound.mk [1] 0).position ≤ (PlayingSound.mk [1] 0).samples.length :=
  (C3_cursor_invariant env0 engineState0 "a" [1] ⟨true, true⟩ 1 fullRing1 4
    (by decide)).1 ("a", PlayingSound.mk [1] 0) (by decide)

/-- Counterexample to C4: pushing a new sample into a full ring does not
drop the oldest not-yet-consumed sample to make room - the push fails, the
newly produced sample is lost, and the old content is retained, so the ring
does not contain the most recently produced sample. -/
theorem C4_counterexample :
    fullRing1.try_push 5 = fullRing1 ∧
    (5 : ℚ) ∉ (fullRing1.try_push 5).data := by
  decide

/-- Claim C4 (amended): when the capture callback pushes into a full ring,
it is the NEWLY produced samples that are dropped: try_push fails and leaves
the ring unchanged, so after every sequence of pushes into a full ring the
ring holds exactly the oldest not-yet-consumed samples it held before. -/
theorem C4_full_ring_drops_new (r : HeapRb) (muted : Bool) (volume : ℚ)
    (data : List ℚ) (h : r.capacity ≤ r.data.length) :
    inputCallback muted volume true data r = r := by
  induction data with
  | nil => rfl
  | cons x xs ih =>
      show (x :: xs).foldl
        (fun acc sample => acc.try_push (if muted then 0 else sample * volume)) r = r
      rw [List.foldl_cons]
      have hpush : HeapRb.try_push r (if muted then 0 else x * volume) = r := by
        simp [HeapRb.try_push, Nat.not_lt.mpr h]
      rw [hpush]
      simpa [inputCallback] using ih

/-- Witness for the amended C4 at a concrete full ring. -/
theorem C4_full_ring_drops_new_witness :
    inputCallback false 1 true [5] fullRing1 = fullRing1 :=
  C4_full_ring_drops_new fullRing1 false 1 [5] (by decide)

/-- Counterexample to C5: a preview Play that fails (here at device
resolution) does not leave the preview engine state as it was before the
Play - the previously playing pad p1 is stopped and its pad id is no longer
current. -/
theorem C5_counterexample :
    (processPreviewPlay previewFailEnv "p2" previewPlaying1).1
      ≠ previewPlaying1 ∧
    (processPreviewPlay previewFailEnv "p2" previewPlaying1).1.current_pad_id
      ≠ some "p1" := by
  decide

/-- Claim C5 (amended): for every preview Play that fails at any step after
it is accepted, no preview-started event is emitted and no new playback
begins, but the prior state is NOT preserved: the Play arm first stops any
current playback, so the previous sink and stream are dropped, the previous
pad id is cleared, and preview-stopped is emitted for it when there was one;
the engine ends with no current preview. -/
theorem C5_failed_play (env : PreviewPlayEnv) (pad_id : String)
    (s : PreviewState) (h : previewPlayFails env = true) :
    processPreviewPlay env pad_id s =
      (⟨false, none, false⟩, stopEventsFor s.current_pad_id) ∧
    ∀ e ∈ (processPreviewPlay env pad_id s).2, e.isStarted = false := by
  have heq : processPreviewPlay env pad_id s =
      (⟨false, none, false⟩, stopEventsFor s.current_pad_id) := by
    obtain ⟨e1, e2, e3, e4, e5⟩ := env
    cases e1 <;> cases e2 <;> cases e3 <;> cases e4 <;> cases e5 <;>
      first
        | exact absurd h (by decide)
        | rfl
  refine ⟨heq, ?_⟩
  rw [heq]
  exact fun e he => stopEventsFor_not_started s.current_pad_id e he

/-- Witness for the amended C5 at a concrete failing Play over a playing
preview. -/
theorem C5_failed_play_witness :
    processPreviewPlay previewFailEnv "p2" previewPlaying1 =
      (⟨false, none, false⟩, [PreviewEvent.preview_stopped "p1"]) :=
  (C5_failed_play previewFailEnv "p2" previewPlaying1 (by decide)).1

/-- Claim C6 (code evaluation): the engine never sends a LevelUpdate event:
over every run of the engine loop, from every state, under every oracle and
every sequence of received commands and timeouts, the events collected in
the outbox contain no LevelUpdate. -/
theorem C6_no_levelUpdate_emitted (env : StartEnv) (s : EngineState)
    (trace : List (Option AudioEngineCommand)) :
    ((runEngine env s trace).2).all (fun e => !e.isLevelUpdate) = true := by
  induction trace generalizing s with
  | nil => rfl
  | cons oc rest ih =>
      show ((engineStep env s oc).2
          ++ (runEngine env (engineStep env s oc).1 rest).2).all
            (fun e => !e.isLevelUpdate) = true
      rw [List.all_append]
      rw [engineStep_no_levelUpdate env s oc, ih (engineStep env s oc).1]
      rfl

/-- Counterexample to C7: with a single enumerated output device that is the
host default, looking up the reserved id "default" (or the empty id) through
get_device returns None rather than the host default device. -/
theorem C7_counterexample :
    get_device [speakersDevice] "default" = none ∧
    get_device [speakersDevice] "" = none ∧
    speakersDevice.is_default = true := by
  decide

/-- Claim C7 (amended): get_device performs a plain literal id match over
the enumeration: it returns a device exactly when one with the requested id
is enumerated, and None otherwise; the reserved strings "default" and the
empty string receive no special handling, so they resolve to None unless a
device literally bears that id. -/
theorem C7_get_device_literal (devices : List AudioDevice) (id : String) :
    (∀ d, get_device devices id = some d → d ∈ devices ∧ d.id = id) ∧
    (get_device devices id = none ↔ ∀ d ∈ devices, d.id ≠ id) := by
  constructor
  · intro d hd
    refine ⟨List.mem_of_find?_eq_some hd, ?_⟩
    have hp := List.find?_some hd
    simpa using hp
  · unfold get_device
    rw [List.find?_eq_none]
    constructor
    · intro hnone d hdm
      have := hnone d hdm
      simpa using this
    · intro hne d hdm
      simpa using hne d hdm

/-- Witness for the amended C7: a lookup for an id no device bears. -/
theorem C7_get_device_literal_witness :
    get_device [speakersDevice] "nonexistent" = none :=
  (C7_get_device_literal [speakersDevice] "nonexistent").2.mpr (by decide)

/-- Claim C8: EffectChain::process applies exactly the enabled blocks, in
the fixed order pitch shift, formant shift, robot, distortion, reverb, with
disabled blocks skipped and each block receiving the previous output: its
output equals the left-fold composition of the enabled block output
functions in that order, for every input frame, every subset of enabled
blocks and every behaviour of the individual blocks. -/
theorem C8_chain_order {P F R Ro D : Type}
    (pitchPr : P → List ℚ → P × List ℚ)
    (formantPr : F → List ℚ → F × List ℚ)
    (reverbPr : R → List ℚ → R × List ℚ)
    (robotPr : Ro → List ℚ → Ro × List ℚ)
    (distortionPr : D → List ℚ → D × List ℚ)
    (c : EffectChain P F R Ro D) (input : List ℚ) :
    (EffectChain.process pitchPr formantPr reverbPr robotPr distortionPr
        c input).2
      = specEnabledComposition pitchPr formantPr reverbPr robotPr distortionPr
          c input := by
  obtain ⟨p, f, r, ro, d⟩ := c
  cases p <;> cases f <;> cases r <;> cases ro <;> cases d <;> rfl

/-- Claim C9: for buffers with equal channel count and sample rate, mix
succeeds with a buffer of length min(len A, len B) whose samples are the
element-wise means of the inputs (the post-mean clamp is the identity since
the inputs lie in the unit range); on a channel-count mismatch the channel
mismatch error is returned, and on a sample-rate mismatch the sample-rate
mismatch error. -/
theorem C9_buffer_mix (a b : AudioBuffer)
    (ha : ∀ x ∈ a.samples, -1 ≤ x ∧ x ≤ 1)
    (hb : ∀ x ∈ b.samples, -1 ≤ x ∧ x ≤ 1) :
    (a.channels = b.channels → a.sample_rate = b.sample_rate →
      a.mix b = Except.ok
        ⟨List.zipWith (fun x y => (x + y) / 2)
            (a.samples.take (min a.samples.length b.samples.length))
            (b.samples.take (min a.samples.length b.samples.length)),
         a.channels, a.sample_rate⟩ ∧
      ∀ out, a.mix b = Except.ok out →
        out.samples.length = min a.samples.length b.samples.length) ∧
    (a.channels ≠ b.channels →
      a.mix b = Except.error
        (BufferError.ChannelMismatch a.channels b.channels)) ∧
    (a.channels = b.channels → a.sample_rate ≠ b.sample_rate →
      a.mix b = Except.error
        (BufferError.SampleRateMismatch a.sample_rate b.sample_rate)) := by
  refine ⟨?_, ?_, ?_⟩
  · intro hch hsr
    have hmixeq : a.mix b = Except.ok
        ⟨List.zipWith sampleMix
            (a.samples.take (min a.samples.length b.samples.length))
            (b.samples.take (min a.samples.length b.samples.length)),
         a.channels, a.sample_rate⟩ := by
      simp [AudioBuffer.mix, hch, hsr]
    have hzip : List.zipWith sampleMix
        (a.samples.take (min a.samples.length b.samples.length))
        (b.samples.take (min a.samples.length b.samples.length))
      = List.zipWith (fun x y => (x + y) / 2)
          (a.samples.take (min a.samples.length b.samples.length))
          (b.samples.take (min a.samples.length b.samples.length)) :=
      zipWith_sampleMix_eq_mean _ _
        (fun x hx => ha x (List.take_subset _ _ hx))
        (fun x hx => hb x (List.take_subset _ _ hx))
    constructor
    · rw [hmixeq, hzip]
    · intro out hout
      rw [hmixeq] at hout
      cases hout
      simp [List.length_zipWith]
  · intro hch
    simp [AudioBuffer.mix, hch]
  · intro hch hsr
    simp [AudioBuffer.mix, hch, hsr]

/-- Witness for C9 at concrete in-range buffers with mismatched channel
counts. -/
theorem C9_buffer_mix_witness :
    bufA.mix bufMono = Except.error (BufferError.ChannelMismatch 2 1) :=
  (C9_buffer_mix bufA bufMono (by decide) (by decide)).2.1 (by decide)
